import Mathlib

/-!
Verification of the hcrypto CommonCrypto provider, `lib/hcrypto/evp-cc.c`.

A shallow embedding of the adapter functions of `evp-cc.c` and of the static
descriptor tables it publishes, followed by theorems about them.

The CommonCrypto library itself is external to the file.  It is represented by
a record of three arbitrary state-passing functions (`CommonCrypto σ`), and
every call the adapter makes to it is appended to a call log kept in the
`World`, so that "how many times / with which arguments was the backend
called" can be stated.
-/

namespace EvpCC

/-! ## Memory and backend vocabulary -/

/-- One `unsigned char`. -/
abbrev Byte := Nat

/-- The bytes a `unsigned char *` / `void *` points at. -/
abbrev Bytes := List Byte

/-- The type `CCCryptorRef` is a pointer to a backend object; `0` is `NULL`. -/
abbrev CCCryptorRef := Nat

/-- The type `CCCryptorStatus` is a 32 bit signed status; `0` is `kCCSuccess`. -/
abbrev CCCryptorStatus := Int

/-- The `CCOperation` values used by `init_cc_key`. -/
inductive CCOperation
  | kCCEncrypt
  | kCCDecrypt
  deriving DecidableEq

/-- The `CCAlgorithm` values named in `evp-cc.c`. -/
inductive CCAlgorithm
  | kCCAlgorithmAES128
  | kCCAlgorithmDES
  | kCCAlgorithm3DES
  | kCCAlgorithmRC4
  | kCCAlgorithmRC2
  deriving DecidableEq

/-- The C struct `cc_key`: the private state of a cipher context. -/
structure cc_key where
  href : CCCryptorRef
  deriving DecidableEq

/-- One call made to the CommonCrypto library, with the arguments passed.
For `Update`, `dataOut` is the content of the output buffer at the moment of
the call. -/
inductive CCCall
  | Create (op : CCOperation) (alg : CCAlgorithm) (options : Nat)
      (key : Bytes) (keyLength : Nat) (iv : Bytes)
  | Update (ref : CCCryptorRef) (dataIn : Bytes) (dataInLength : Nat)
      (dataOut : Bytes) (dataOutAvailable : Nat)
  | Release (ref : CCCryptorRef)
  deriving DecidableEq

/-- What `CCCryptorCreate` hands back: the status and the value found in the
destination slot `*cryptorRef` afterwards. -/
structure CreateResult (σ : Type) where
  status : CCCryptorStatus
  ref : CCCryptorRef
  backend : σ

/-- What `CCCryptorUpdate` hands back: the status, the stores it performed
into `dataOut` (offset, byte) in order, and the value left in
`*dataOutMoved`. -/
structure UpdateResult (σ : Type) where
  status : CCCryptorStatus
  writes : List (Nat × Byte)
  moved : Nat
  backend : σ

/-- What `CCCryptorRelease` hands back. -/
structure ReleaseResult (σ : Type) where
  status : CCCryptorStatus
  backend : σ

/-- The external CommonCrypto library, over its own state `σ`.
`CCCryptorCreate` also receives the value currently held in the destination
slot, since it gets a pointer to it. -/
structure CommonCrypto (σ : Type) where
  CCCryptorCreate : σ → CCOperation → CCAlgorithm → Nat → Bytes → Nat → Bytes →
    CCCryptorRef → CreateResult σ
  CCCryptorUpdate : σ → CCCryptorRef → Bytes → Nat → Bytes → Nat → UpdateResult σ
  CCCryptorRelease : σ → CCCryptorRef → ReleaseResult σ

/-- The backend state together with the chronological log of calls made to
the backend. -/
structure World (σ : Type) where
  backend : σ
  calls : List CCCall

/-! ## Header constants -/

/-- Modelled from the spec: the constants, macros and `sizeof` values that
`evp-cc.c` takes from headers that are not part of the sources
(`CommonCrypto/CommonCryptor.h`, `CommonCrypto/CommonDigest.h`, `evp.h`).
They are parameters of every table below. -/
structure Headers where
  kCCKeySize3DES : Nat
  kCCBlockSizeDES : Nat
  kCCBlockSizeAES128 : Nat
  kCCKeySizeAES128 : Nat
  kCCKeySizeAES192 : Nat
  kCCKeySizeAES256 : Nat
  kCCBlockSizeRC2 : Nat
  EVP_CIPH_STREAM_CIPHER : Nat
  EVP_CIPH_CBC_MODE : Nat
  EVP_CIPH_VARIABLE_LENGTH : Nat
  sizeof_cc_key : Nat
  CC_MD2_DIGEST_LENGTH : Nat
  CC_MD2_BLOCK_BYTES : Nat
  sizeof_CC_MD2_CTX : Nat
  CC_MD4_DIGEST_LENGTH : Nat
  CC_MD4_BLOCK_BYTES : Nat
  sizeof_CC_MD4_CTX : Nat
  CC_MD5_DIGEST_LENGTH : Nat
  CC_MD5_BLOCK_BYTES : Nat
  sizeof_CC_MD5_CTX : Nat
  CC_SHA1_DIGEST_LENGTH : Nat
  CC_SHA1_BLOCK_BYTES : Nat
  sizeof_CC_SHA1_CTX : Nat
  CC_SHA256_DIGEST_LENGTH : Nat
  CC_SHA256_BLOCK_BYTES : Nat
  sizeof_CC_SHA256_CTX : Nat

/-- Modelled from the spec: the published values of the header constants
(AES: 16 byte block, 16/24/32 byte keys; DES and RC2: 8 byte block;
triple-DES: 24 byte key; MD2/MD4/MD5: 16 byte digest; SHA-1: 20; SHA-256: 32),
with the flag values of `evp.h` and the structure sizes of a 64 bit build. -/
def published : Headers where
  kCCKeySize3DES := 24
  kCCBlockSizeDES := 8
  kCCBlockSizeAES128 := 16
  kCCKeySizeAES128 := 16
  kCCKeySizeAES192 := 24
  kCCKeySizeAES256 := 32
  kCCBlockSizeRC2 := 8
  EVP_CIPH_STREAM_CIPHER := 0
  EVP_CIPH_CBC_MODE := 2
  EVP_CIPH_VARIABLE_LENGTH := 8
  sizeof_cc_key := 8
  CC_MD2_DIGEST_LENGTH := 16
  CC_MD2_BLOCK_BYTES := 64
  sizeof_CC_MD2_CTX := 148
  CC_MD4_DIGEST_LENGTH := 16
  CC_MD4_BLOCK_BYTES := 64
  sizeof_CC_MD4_CTX := 92
  CC_MD5_DIGEST_LENGTH := 16
  CC_MD5_BLOCK_BYTES := 64
  sizeof_CC_MD5_CTX := 92
  CC_SHA1_DIGEST_LENGTH := 20
  CC_SHA1_BLOCK_BYTES := 64
  sizeof_CC_SHA1_CTX := 96
  CC_SHA256_DIGEST_LENGTH := 32
  CC_SHA256_BLOCK_BYTES := 64
  sizeof_CC_SHA256_CTX := 104

/-- The header constants carry the published sizes. -/
def Headers.Published (h : Headers) : Prop :=
  h.kCCKeySize3DES = 24 ∧ h.kCCBlockSizeDES = 8 ∧ h.kCCBlockSizeAES128 = 16 ∧
  h.kCCKeySizeAES128 = 16 ∧ h.kCCKeySizeAES192 = 24 ∧ h.kCCKeySizeAES256 = 32 ∧
  h.kCCBlockSizeRC2 = 8 ∧
  h.CC_MD2_DIGEST_LENGTH = 16 ∧ h.CC_MD4_DIGEST_LENGTH = 16 ∧
  h.CC_MD5_DIGEST_LENGTH = 16 ∧ h.CC_SHA1_DIGEST_LENGTH = 20 ∧
  h.CC_SHA256_DIGEST_LENGTH = 32

instance (h : Headers) : Decidable h.Published := by
  unfold Headers.Published; infer_instance

/-! ## Descriptor and context records -/

/-- The functions of this file that can sit in the `init` slot of a cipher
descriptor. -/
inductive CipherInitFn
  | cc_des_ede3_cbc_init
  | cc_des_cbc_init
  | cc_aes_cbc_init
  | cc_rc2_cbc_init
  | cc_rc4_init
  deriving DecidableEq

/-- The function of this file that can sit in the `do_cipher` slot. -/
inductive DoCipherFn
  | cc_do_cipher
  deriving DecidableEq

/-- The function of this file that can sit in the `cleanup` slot. -/
inductive CleanupFn
  | cc_cleanup
  deriving DecidableEq

/-- Modelled from the spec: the record `EVP_CIPHER` (declared in `evp.h`,
which is not part of the sources), in the order of the initialisers used in
`evp-cc.c`: NID, block size, key length, IV length, flags, the init,
do-transform and cleanup slots, the private state size, and four further
slots.  A slot is `none` when it holds `NULL`. -/
structure EVP_CIPHER where
  nid : Int
  block_size : Nat
  key_len : Nat
  iv_len : Nat
  flags : Nat
  init : Option CipherInitFn
  do_cipher : Option DoCipherFn
  cleanup : Option CleanupFn
  ctx_size : Nat
  set_asn1_parameters : Option Nat
  get_asn1_parameters : Option Nat
  ctrl : Option Nat
  app_data : Option Nat
  deriving DecidableEq

/-- Modelled from the spec: the part of `EVP_CIPHER_CTX` (declared in `evp.h`,
which is not part of the sources) that `evp-cc.c` reads or writes: the
descriptor the context was created from, the effective key length, and the
private state `cipher_data`, which this provider interprets as a `cc_key`. -/
structure EVP_CIPHER_CTX where
  cipher : EVP_CIPHER
  key_len : Nat
  cipher_data : cc_key
  deriving DecidableEq

/-- What a cipher function returns: its `int` result, the context and the
world after the call. -/
structure CallResult (σ : Type) where
  ret : Int
  ctx : EVP_CIPHER_CTX
  world : World σ

/-- What `cc_do_cipher` returns: its `int` result, the output buffer, the
context and the world after the call. -/
structure CipherResult (σ : Type) where
  ret : Int
  out : Bytes
  ctx : EVP_CIPHER_CTX
  world : World σ

/-! ## The adapter functions -/

/-- The C call `memcpy(out, inp, size)` on two disjoint buffers: the first
`size` bytes of `out` become those of `inp`. -/
def memcpy (out inp : Bytes) (size : Nat) : Bytes :=
  inp.take size ++ out.drop size

/-- Perform the stores of the backend, in order, on a buffer. -/
def applyWrites (buf : Bytes) (ws : List (Nat × Byte)) : Bytes :=
  ws.foldl (fun b s => b.set s.1 s.2) buf

/-- The function `cc_do_cipher`. -/
def cc_do_cipher {σ : Type} (cc : CommonCrypto σ) (w : World σ)
    (ctx : EVP_CIPHER_CTX) (out inp : Bytes) (size : Nat) : CipherResult σ :=
  let c := ctx.cipher_data
  let out1 := memcpy out inp size
  let r := cc.CCCryptorUpdate w.backend c.href inp size out1 size
  let w1 : World σ :=
    { backend := r.backend
      calls := w.calls ++ [CCCall.Update c.href inp size out1 size] }
  let out2 := applyWrites out1 r.writes
  if r.status ≠ 0 then
    { ret := 0, out := out2, ctx := ctx, world := w1 }
  else if r.moved ≠ size then
    { ret := 0, out := out2, ctx := ctx, world := w1 }
  else
    { ret := 1, out := out2, ctx := ctx, world := w1 }

/-- The function `cc_cleanup`. -/
def cc_cleanup {σ : Type} (cc : CommonCrypto σ) (w : World σ)
    (ctx : EVP_CIPHER_CTX) : CallResult σ :=
  let c := ctx.cipher_data
  if c.href ≠ 0 then
    let r := cc.CCCryptorRelease w.backend c.href
    { ret := 1, ctx := ctx,
      world := { backend := r.backend, calls := w.calls ++ [CCCall.Release c.href] } }
  else
    { ret := 1, ctx := ctx, world := w }

/-- What `init_cc_key` returns: its `int` result, the value of the slot `*ref`
and the world after the call. -/
structure KeyResult (σ : Type) where
  ret : Int
  ref : CCCryptorRef
  world : World σ

/-- The function `init_cc_key`; `ref` is the value held in the slot `*ref`
on entry. -/
def init_cc_key {σ : Type} (cc : CommonCrypto σ) (w : World σ) (encp : Int)
    (alg : CCAlgorithm) (key : Bytes) (keylen : Nat) (iv : Bytes)
    (ref : CCCryptorRef) : KeyResult σ :=
  let op := if encp ≠ 0 then CCOperation.kCCEncrypt else CCOperation.kCCDecrypt
  let r := cc.CCCryptorCreate w.backend op alg 0 key keylen iv ref
  let w1 : World σ :=
    { backend := r.backend
      calls := w.calls ++ [CCCall.Create op alg 0 key keylen iv] }
  if r.status ≠ 0 then
    { ret := 0, ref := r.ref, world := w1 }
  else
    { ret := 1, ref := r.ref, world := w1 }

/-- Store the outcome of `init_cc_key(..., &cc->href)` back into the context. -/
def storeKey {σ : Type} (ctx : EVP_CIPHER_CTX) (r : KeyResult σ) : CallResult σ :=
  { ret := r.ret, ctx := { ctx with cipher_data := { href := r.ref } }, world := r.world }

/-- The function `cc_des_ede3_cbc_init`. -/
def cc_des_ede3_cbc_init {σ : Type} (h : Headers) (cc : CommonCrypto σ) (w : World σ)
    (ctx : EVP_CIPHER_CTX) (key iv : Bytes) (encp : Int) : CallResult σ :=
  let c := ctx.cipher_data
  storeKey ctx
    (init_cc_key cc w encp CCAlgorithm.kCCAlgorithm3DES key h.kCCKeySize3DES iv c.href)

/-- The function `cc_des_cbc_init`. -/
def cc_des_cbc_init {σ : Type} (h : Headers) (cc : CommonCrypto σ) (w : World σ)
    (ctx : EVP_CIPHER_CTX) (key iv : Bytes) (encp : Int) : CallResult σ :=
  let c := ctx.cipher_data
  storeKey ctx
    (init_cc_key cc w encp CCAlgorithm.kCCAlgorithmDES key h.kCCBlockSizeDES iv c.href)

/-- The function `cc_aes_cbc_init`. -/
def cc_aes_cbc_init {σ : Type} (cc : CommonCrypto σ) (w : World σ)
    (ctx : EVP_CIPHER_CTX) (key iv : Bytes) (encp : Int) : CallResult σ :=
  let c := ctx.cipher_data
  storeKey ctx
    (init_cc_key cc w encp CCAlgorithm.kCCAlgorithmAES128 key ctx.cipher.key_len iv c.href)

/-- The function `cc_rc2_cbc_init`. -/
def cc_rc2_cbc_init {σ : Type} (cc : CommonCrypto σ) (w : World σ)
    (ctx : EVP_CIPHER_CTX) (key iv : Bytes) (encp : Int) : CallResult σ :=
  let c := ctx.cipher_data
  storeKey ctx
    (init_cc_key cc w encp CCAlgorithm.kCCAlgorithmRC2 key ctx.cipher.key_len iv c.href)

/-- The function `cc_rc4_init`. -/
def cc_rc4_init {σ : Type} (cc : CommonCrypto σ) (w : World σ)
    (ctx : EVP_CIPHER_CTX) (key iv : Bytes) (encp : Int) : CallResult σ :=
  let c := ctx.cipher_data
  storeKey ctx
    (init_cc_key cc w encp CCAlgorithm.kCCAlgorithmRC4 key ctx.key_len iv c.href)

/-- The accessor `EVP_cc_des_ede3_cbc`. -/
def EVP_cc_des_ede3_cbc (h : Headers) : Option EVP_CIPHER :=
  some
    { nid := 0
      block_size := 8
      key_len := 24
      iv_len := 8
      flags := h.EVP_CIPH_CBC_MODE
      init := some CipherInitFn.cc_des_ede3_cbc_init
      do_cipher := some DoCipherFn.cc_do_cipher
      cleanup := some CleanupFn.cc_cleanup
      ctx_size := h.sizeof_cc_key
      set_asn1_parameters := none
      get_asn1_parameters := none
      ctrl := none
      app_data := none }

/-- The accessor `EVP_cc_des_cbc`. -/
def EVP_cc_des_cbc (h : Headers) : Option EVP_CIPHER :=
  some
    { nid := 0
      block_size := h.kCCBlockSizeDES
      key_len := h.kCCBlockSizeDES
      iv_len := h.kCCBlockSizeDES
      flags := h.EVP_CIPH_CBC_MODE
      init := some CipherInitFn.cc_des_cbc_init
      do_cipher := some DoCipherFn.cc_do_cipher
      cleanup := some CleanupFn.cc_cleanup
      ctx_size := h.sizeof_cc_key
      set_asn1_parameters := none
      get_asn1_parameters := none
      ctrl := none
      app_data := none }

/-- The accessor `EVP_cc_aes_128_cbc`. -/
def EVP_cc_aes_128_cbc (h : Headers) : Option EVP_CIPHER :=
  some
    { nid := 0
      block_size := h.kCCBlockSizeAES128
      key_len := h.kCCKeySizeAES128
      iv_len := h.kCCBlockSizeAES128
      flags := h.EVP_CIPH_CBC_MODE
      init := some CipherInitFn.cc_aes_cbc_init
      do_cipher := some DoCipherFn.cc_do_cipher
      cleanup := some CleanupFn.cc_cleanup
      ctx_size := h.sizeof_cc_key
      set_asn1_parameters := none
      get_asn1_parameters := none
      ctrl := none
      app_data := none }

/-- The accessor `EVP_cc_aes_192_cbc`. -/
def EVP_cc_aes_192_cbc (h : Headers) : Option EVP_CIPHER :=
  some
    { nid := 0
      block_size := h.kCCBlockSizeAES128
      key_len := h.kCCKeySizeAES192
      iv_len := h.kCCBlockSizeAES128
      flags := h.EVP_CIPH_CBC_MODE
      init := some CipherInitFn.cc_aes_cbc_init
      do_cipher := some DoCipherFn.cc_do_cipher
      cleanup := some CleanupFn.cc_cleanup
      ctx_size := h.sizeof_cc_key
      set_asn1_parameters := none
      get_asn1_parameters := none
      ctrl := none
      app_data := none }

/-- The accessor `EVP_cc_aes_256_cbc`. -/
def EVP_cc_aes_256_cbc (h : Headers) : Option EVP_CIPHER :=
  some
    { nid := 0
      block_size := h.kCCBlockSizeAES128
      key_len := h.kCCKeySizeAES256
      iv_len := h.kCCBlockSizeAES128
      flags := h.EVP_CIPH_CBC_MODE
      init := some CipherInitFn.cc_aes_cbc_init
      do_cipher := some DoCipherFn.cc_do_cipher
      cleanup := some CleanupFn.cc_cleanup
      ctx_size := h.sizeof_cc_key
      set_asn1_parameters := none
      get_asn1_parameters := none
      ctrl := none
      app_data := none }

/-- The accessor `EVP_cc_rc2_cbc`. -/
def EVP_cc_rc2_cbc (h : Headers) : Option EVP_CIPHER :=
  some
    { nid := 0
      block_size := h.kCCBlockSizeRC2
      key_len := 16
      iv_len := h.kCCBlockSizeRC2
      flags := h.EVP_CIPH_CBC_MODE
      init := some CipherInitFn.cc_rc2_cbc_init
      do_cipher := some DoCipherFn.cc_do_cipher
      cleanup := some CleanupFn.cc_cleanup
      ctx_size := h.sizeof_cc_key
      set_asn1_parameters := none
      get_asn1_parameters := none
      ctrl := none
      app_data := none }

/-- The accessor `EVP_cc_rc2_40_cbc`. -/
def EVP_cc_rc2_40_cbc (h : Headers) : Option EVP_CIPHER :=
  some
    { nid := 0
      block_size := h.kCCBlockSizeRC2
      key_len := 5
      iv_len := h.kCCBlockSizeRC2
      flags := h.EVP_CIPH_CBC_MODE
      init := some CipherInitFn.cc_rc2_cbc_init
      do_cipher := some DoCipherFn.cc_do_cipher
      cleanup := some CleanupFn.cc_cleanup
      ctx_size := h.sizeof_cc_key
      set_asn1_parameters := none
      get_asn1_parameters := none
      ctrl := none
      app_data := none }

/-- The accessor `EVP_cc_rc2_64_cbc`. -/
def EVP_cc_rc2_64_cbc (h : Headers) : Option EVP_CIPHER :=
  some
    { nid := 0
      block_size := h.kCCBlockSizeRC2
      key_len := 8
      iv_len := h.kCCBlockSizeRC2
      flags := h.EVP_CIPH_CBC_MODE
      init := some CipherInitFn.cc_rc2_cbc_init
      do_cipher := some DoCipherFn.cc_do_cipher
      cleanup := some CleanupFn.cc_cleanup
      ctx_size := h.sizeof_cc_key
      set_asn1_parameters := none
      get_asn1_parameters := none
      ctrl := none
      app_data := none }

/-- The accessor `EVP_cc_camellia_128_cbc`: it returns `NULL`. -/
def EVP_cc_camellia_128_cbc (_h : Headers) : Option EVP_CIPHER :=
  none

/-- The accessor `EVP_cc_camellia_192_cbc`: it returns `NULL`. -/
def EVP_cc_camellia_192_cbc (_h : Headers) : Option EVP_CIPHER :=
  none

/-- The accessor `EVP_cc_camellia_256_cbc`: it returns `NULL`. -/
def EVP_cc_camellia_256_cbc (_h : Headers) : Option EVP_CIPHER :=
  none

/-- The accessor `EVP_cc_rc4`. -/
def EVP_cc_rc4 (h : Headers) : Option EVP_CIPHER :=
  some
    { nid := 0
      block_size := 1
      key_len := 16
      iv_len := 0
      flags := h.EVP_CIPH_STREAM_CIPHER ||| h.EVP_CIPH_VARIABLE_LENGTH
      init := some CipherInitFn.cc_rc4_init
      do_cipher := some DoCipherFn.cc_do_cipher
      cleanup := some CleanupFn.cc_cleanup
      ctx_size := h.sizeof_cc_key
      set_asn1_parameters := none
      get_asn1_parameters := none
      ctrl := none
      app_data := none }

/-- The accessor `EVP_cc_rc4_40`. -/
def EVP_cc_rc4_40 (h : Headers) : Option EVP_CIPHER :=
  some
    { nid := 0
      block_size := 1
      key_len := 5
      iv_len := 0
      flags := h.EVP_CIPH_STREAM_CIPHER ||| h.EVP_CIPH_VARIABLE_LENGTH
      init := some CipherInitFn.cc_rc4_init
      do_cipher := some DoCipherFn.cc_do_cipher
      cleanup := some CleanupFn.cc_cleanup
      ctx_size := h.sizeof_cc_key
      set_asn1_parameters := none
      get_asn1_parameters := none
      ctrl := none
      app_data := none }

/-! ## The digest descriptor tables -/

/-- The CommonCrypto digest functions that `evp-cc.c` casts into the slots of
a digest descriptor. -/
inductive CCDigestFn
  | CC_MD2_Init
  | CC_MD2_Update
  | CC_MD2_Final
  | CC_MD4_Init
  | CC_MD4_Update
  | CC_MD4_Final
  | CC_MD5_Init
  | CC_MD5_Update
  | CC_MD5_Final
  | CC_SHA1_Init
  | CC_SHA1_Update
  | CC_SHA1_Final
  | CC_SHA256_Init
  | CC_SHA256_Update
  | CC_SHA256_Final
  deriving DecidableEq

/-- Modelled from the spec: the record `hc_evp_md` (declared in `evp.h`, which
is not part of the sources), in the order of the initialisers used in
`evp-cc.c`: output length, block length, private state size, and the init,
update, final and cleanup slots.  A slot is `none` when it holds `NULL`. -/
structure hc_evp_md where
  hash_size : Nat
  block_size : Nat
  ctx_size : Nat
  init : Option CCDigestFn
  update : Option CCDigestFn
  final : Option CCDigestFn
  cleanup : Option CCDigestFn
  deriving DecidableEq

/-- The accessor `EVP_cc_md2`. -/
def EVP_cc_md2 (h : Headers) : Option hc_evp_md :=
  some
    { hash_size := h.CC_MD2_DIGEST_LENGTH
      block_size := h.CC_MD2_BLOCK_BYTES
      ctx_size := h.sizeof_CC_MD2_CTX
      init := some CCDigestFn.CC_MD2_Init
      update := some CCDigestFn.CC_MD2_Update
      final := some CCDigestFn.CC_MD2_Final
      cleanup := none }

/-- The accessor `EVP_cc_md4`. -/
def EVP_cc_md4 (h : Headers) : Option hc_evp_md :=
  some
    { hash_size := h.CC_MD4_DIGEST_LENGTH
      block_size := h.CC_MD4_BLOCK_BYTES
      ctx_size := h.sizeof_CC_MD4_CTX
      init := some CCDigestFn.CC_MD4_Init
      update := some CCDigestFn.CC_MD4_Update
      final := some CCDigestFn.CC_MD4_Final
      cleanup := none }

/-- The accessor `EVP_cc_md5`. -/
def EVP_cc_md5 (h : Headers) : Option hc_evp_md :=
  some
    { hash_size := h.CC_MD5_DIGEST_LENGTH
      block_size := h.CC_MD5_BLOCK_BYTES
      ctx_size := h.sizeof_CC_MD5_CTX
      init := some CCDigestFn.CC_MD5_Init
      update := some CCDigestFn.CC_MD5_Update
      final := some CCDigestFn.CC_MD5_Final
      cleanup := none }

/-- The accessor `EVP_cc_sha1`. -/
def EVP_cc_sha1 (h : Headers) : Option hc_evp_md :=
  some
    { hash_size := h.CC_SHA1_DIGEST_LENGTH
      block_size := h.CC_SHA1_BLOCK_BYTES
      ctx_size := h.sizeof_CC_SHA1_CTX
      init := some CCDigestFn.CC_SHA1_Init
      update := some CCDigestFn.CC_SHA1_Update
      final := some CCDigestFn.CC_SHA1_Final
      cleanup := none }

/-- The accessor `EVP_cc_sha256`. -/
def EVP_cc_sha256 (h : Headers) : Option hc_evp_md :=
  some
    { hash_size := h.CC_SHA256_DIGEST_LENGTH
      block_size := h.CC_SHA256_BLOCK_BYTES
      ctx_size := h.sizeof_CC_SHA256_CTX
      init := some CCDigestFn.CC_SHA256_Init
      update := some CCDigestFn.CC_SHA256_Update
      final := some CCDigestFn.CC_SHA256_Final
      cleanup := none }

/-! ## Enumerations of the exported accessors -/

/-- The cipher accessors exported by `evp-cc.c`. -/
inductive CipherName
  | des_ede3_cbc
  | des_cbc
  | aes_128_cbc
  | aes_192_cbc
  | aes_256_cbc
  | rc2_cbc
  | rc2_40_cbc
  | rc2_64_cbc
  | camellia_128_cbc
  | camellia_192_cbc
  | camellia_256_cbc
  | rc4
  | rc4_40
  deriving DecidableEq

/-- The accessor function behind each cipher name. -/
def cipherAccessor (n : CipherName) (h : Headers) : Option EVP_CIPHER :=
  match n with
  | .des_ede3_cbc => EVP_cc_des_ede3_cbc h
  | .des_cbc => EVP_cc_des_cbc h
  | .aes_128_cbc => EVP_cc_aes_128_cbc h
  | .aes_192_cbc => EVP_cc_aes_192_cbc h
  | .aes_256_cbc => EVP_cc_aes_256_cbc h
  | .rc2_cbc => EVP_cc_rc2_cbc h
  | .rc2_40_cbc => EVP_cc_rc2_40_cbc h
  | .rc2_64_cbc => EVP_cc_rc2_64_cbc h
  | .camellia_128_cbc => EVP_cc_camellia_128_cbc h
  | .camellia_192_cbc => EVP_cc_camellia_192_cbc h
  | .camellia_256_cbc => EVP_cc_camellia_256_cbc h
  | .rc4 => EVP_cc_rc4 h
  | .rc4_40 => EVP_cc_rc4_40 h

/-- The three Camellia names. -/
def CipherName.isCamellia : CipherName → Bool
  | .camellia_128_cbc => true
  | .camellia_192_cbc => true
  | .camellia_256_cbc => true
  | _ => false

/-- The two variable key length stream ciphers, RC4 and RC4-40. -/
def CipherName.isRC4 : CipherName → Bool
  | .rc4 => true
  | .rc4_40 => true
  | _ => false

/-- The digest accessors exported by `evp-cc.c`. -/
inductive DigestName
  | md2
  | md4
  | md5
  | sha1
  | sha256
  deriving DecidableEq

/-- The accessor function behind each digest name. -/
def digestAccessor (n : DigestName) (h : Headers) : Option hc_evp_md :=
  match n with
  | .md2 => EVP_cc_md2 h
  | .md4 => EVP_cc_md4 h
  | .md5 => EVP_cc_md5 h
  | .sha1 => EVP_cc_sha1 h
  | .sha256 => EVP_cc_sha256 h

/-! ## Reference tables, written from the specification -/

/-- Published block size of each supported cipher, in bytes (a stream cipher
works on single bytes). -/
def publishedBlockSize : CipherName → Nat
  | .des_ede3_cbc => 8
  | .des_cbc => 8
  | .aes_128_cbc => 16
  | .aes_192_cbc => 16
  | .aes_256_cbc => 16
  | .rc2_cbc => 8
  | .rc2_40_cbc => 8
  | .rc2_64_cbc => 8
  | .camellia_128_cbc => 16
  | .camellia_192_cbc => 16
  | .camellia_256_cbc => 16
  | .rc4 => 1
  | .rc4_40 => 1

/-- Published key length of each supported cipher, in bytes: triple-DES 24,
DES 8, AES 16/24/32, RC2 16/5/8, RC4 16 and RC4-40 5 (defaults). -/
def publishedKeyLen : CipherName → Nat
  | .des_ede3_cbc => 24
  | .des_cbc => 8
  | .aes_128_cbc => 16
  | .aes_192_cbc => 24
  | .aes_256_cbc => 32
  | .rc2_cbc => 16
  | .rc2_40_cbc => 5
  | .rc2_64_cbc => 8
  | .camellia_128_cbc => 16
  | .camellia_192_cbc => 24
  | .camellia_256_cbc => 32
  | .rc4 => 16
  | .rc4_40 => 5

/-- Published digest output length, in bytes: MD2/MD4/MD5 16, SHA-1 20,
SHA-256 32. -/
def publishedDigestLength : DigestName → Nat
  | .md2 => 16
  | .md4 => 16
  | .md5 => 16
  | .sha1 => 20
  | .sha256 => 32

/-- The backend constants that belong to a digest: output length, block
length and context size. -/
def backendDigestConstants (h : Headers) : DigestName → Nat × Nat × Nat
  | .md2 => (h.CC_MD2_DIGEST_LENGTH, h.CC_MD2_BLOCK_BYTES, h.sizeof_CC_MD2_CTX)
  | .md4 => (h.CC_MD4_DIGEST_LENGTH, h.CC_MD4_BLOCK_BYTES, h.sizeof_CC_MD4_CTX)
  | .md5 => (h.CC_MD5_DIGEST_LENGTH, h.CC_MD5_BLOCK_BYTES, h.sizeof_CC_MD5_CTX)
  | .sha1 => (h.CC_SHA1_DIGEST_LENGTH, h.CC_SHA1_BLOCK_BYTES, h.sizeof_CC_SHA1_CTX)
  | .sha256 => (h.CC_SHA256_DIGEST_LENGTH, h.CC_SHA256_BLOCK_BYTES, h.sizeof_CC_SHA256_CTX)

/-- The backend init, update and final functions that belong to a digest. -/
def backendDigestFunctions : DigestName → CCDigestFn × CCDigestFn × CCDigestFn
  | .md2 => (.CC_MD2_Init, .CC_MD2_Update, .CC_MD2_Final)
  | .md4 => (.CC_MD4_Init, .CC_MD4_Update, .CC_MD4_Final)
  | .md5 => (.CC_MD5_Init, .CC_MD5_Update, .CC_MD5_Final)
  | .sha1 => (.CC_SHA1_Init, .CC_SHA1_Update, .CC_SHA1_Final)
  | .sha256 => (.CC_SHA256_Init, .CC_SHA256_Update, .CC_SHA256_Final)

/-- The stores of one update call all land inside the output capacity `cap`
that the call was given. -/
def StoresWithin {σ : Type} (r : UpdateResult σ) (cap : Nat) : Prop :=
  ∀ st ∈ r.writes, st.1 < cap

/-- A backend that accepts every create call and stores handle `41` in the
destination slot; update overwrites the first `dataInLength` bytes of the output
(within capacity) with the input bytes plus one and reports them moved. -/
def acceptingCC : CommonCrypto Unit where
  CCCryptorCreate := fun s _ _ _ _ _ _ _ => { status := 0, ref := 41, backend := s }
  CCCryptorUpdate := fun s _ dataIn n _ cap =>
    { status := 0
      writes := ((List.range (min n cap)).zip (dataIn.map (fun b => b + 1)))
      moved := min n cap
      backend := s }
  CCCryptorRelease := fun s _ => { status := 0, backend := s }

/-- An empty world over the unit backend state. -/
def world0 : World Unit :=
  { backend := (), calls := [] }

/-- The AES-128-CBC descriptor under the published constants. -/
def aes128 : EVP_CIPHER :=
  (EVP_cc_aes_128_cbc published).getD
    { nid := 0, block_size := 0, key_len := 0, iv_len := 0, flags := 0, init := none,
      do_cipher := none, cleanup := none, ctx_size := 0, set_asn1_parameters := none,
      get_asn1_parameters := none, ctrl := none, app_data := none }

/-- A freshly allocated AES-128 context: no handle yet. -/
def freshCtx : EVP_CIPHER_CTX :=
  { cipher := aes128, key_len := 16, cipher_data := { href := 0 } }

/-- Sixteen zero bytes. -/
def zeros16 : Bytes :=
  List.replicate 16 0

theorem applyWrites_length (ws : List (Nat × Byte)) (buf : Bytes) :
    (applyWrites buf ws).length = buf.length := by
  induction ws generalizing buf with
  | nil => rfl
  | cons s ws ih =>
    show (applyWrites (buf.set s.1 s.2) ws).length = buf.length
    rw [ih, List.length_set]

theorem applyWrites_getElem?_of_not_written (ws : List (Nat × Byte)) (buf : Bytes) (i : Nat)
    (hi : ∀ s ∈ ws, s.1 ≠ i) : (applyWrites buf ws)[i]? = buf[i]? := by
  induction ws generalizing buf with
  | nil => rfl
  | cons s ws ih =>
    show (applyWrites (buf.set s.1 s.2) ws)[i]? = buf[i]?
    rw [ih _ (fun t ht => hi t (List.mem_cons_of_mem _ ht))]
    exact List.getElem?_set_ne (hi s (List.mem_cons_self _ _))

theorem memcpy_getElem?_lt (out inp : Bytes) (size i : Nat) (hin : size ≤ inp.length)
    (hi : i < size) : (memcpy out inp size)[i]? = inp[i]? := by
  unfold memcpy
  rw [List.getElem?_append_left (by simp; omega)]
  exact List.getElem?_take_of_lt hi

theorem memcpy_getElem?_ge (out inp : Bytes) (size i : Nat) (hin : size ≤ inp.length)
    (hi : size ≤ i) : (memcpy out inp size)[i]? = out[i]? := by
  unfold memcpy
  have hlen : (inp.take size).length = size := by simp; omega
  rw [List.getElem?_append_right (by omega), hlen, List.getElem?_drop]
  congr 1
  omega

theorem memcpy_take (out inp : Bytes) (size : Nat) (hin : size ≤ inp.length) :
    (memcpy out inp size).take size = inp.take size := by
  unfold memcpy
  have hlen : (inp.take size).length = size := by simp; omega
  rw [List.take_append_eq_append_take, hlen]
  simp

theorem memcpy_length (out inp : Bytes) (size : Nat) (hin : size ≤ inp.length)
    (hout : size ≤ out.length) : (memcpy out inp size).length = out.length := by
  unfold memcpy
  simp
  omega

/-- C1: for every context, input, output and byte count, `cc_do_cipher`
returns 1 exactly when the backend update call it made returned status 0 and
reported `moved = size`, and returns 0 exactly when that is not the case. -/
theorem cc_do_cipher_success_iff {σ : Type} (cc : CommonCrypto σ) (w : World σ)
    (ctx : EVP_CIPHER_CTX) (out inp : Bytes) (size : Nat) :
    ((cc_do_cipher cc w ctx out inp size).ret = 1 ↔
      ((cc.CCCryptorUpdate w.backend ctx.cipher_data.href inp size
          (memcpy out inp size) size).status = 0 ∧
       (cc.CCCryptorUpdate w.backend ctx.cipher_data.href inp size
          (memcpy out inp size) size).moved = size)) ∧
    ((cc_do_cipher cc w ctx out inp size).ret = 0 ↔
      ¬ ((cc.CCCryptorUpdate w.backend ctx.cipher_data.href inp size
          (memcpy out inp size) size).status = 0 ∧
         (cc.CCCryptorUpdate w.backend ctx.cipher_data.href inp size
          (memcpy out inp size) size).moved = size)) := by
  unfold cc_do_cipher
  by_cases hs : (cc.CCCryptorUpdate w.backend ctx.cipher_data.href inp size
      (memcpy out inp size) size).status = 0
  · by_cases hm : (cc.CCCryptorUpdate w.backend ctx.cipher_data.href inp size
        (memcpy out inp size) size).moved = size
    · simp [hs, hm]
    · simp [hs, hm]
  · simp [hs]

/-- C6: for buffers of at least `size` bytes and a backend whose stores stay
inside the capacity it is given, `cc_do_cipher` makes one update call with
`size` input bytes, capacity `size` and the output already holding a copy of
the first `size` input bytes; afterwards the output has its original length,
every byte below `size` that the backend did not store to equals the input
byte, the first `size` bytes equal the input when the backend stored nothing,
and every byte at an index of at least `size` is unchanged. -/
theorem cc_do_cipher_frame {σ : Type} (cc : CommonCrypto σ) (w : World σ)
    (ctx : EVP_CIPHER_CTX) (out inp : Bytes) (size : Nat)
    (hin : size ≤ inp.length) (hout : size ≤ out.length)
    (hcap : StoresWithin (cc.CCCryptorUpdate w.backend ctx.cipher_data.href inp size
      (memcpy out inp size) size) size) :
    (cc_do_cipher cc w ctx out inp size).world.calls =
      w.calls ++ [CCCall.Update ctx.cipher_data.href inp size
        (inp.take size ++ out.drop size) size] ∧
    (cc_do_cipher cc w ctx out inp size).out.length = out.length ∧
    (∀ i, i < size →
      (∀ st ∈ (cc.CCCryptorUpdate w.backend ctx.cipher_data.href inp size
          (memcpy out inp size) size).writes, st.1 ≠ i) →
      (cc_do_cipher cc w ctx out inp size).out[i]? = inp[i]?) ∧
    ((cc.CCCryptorUpdate w.backend ctx.cipher_data.href inp size
          (memcpy out inp size) size).writes = [] →
      (cc_do_cipher cc w ctx out inp size).out.take size = inp.take size) ∧
    (∀ i, size ≤ i → (cc_do_cipher cc w ctx out inp size).out[i]? = out[i]?) := by
  have hout_eq : (cc_do_cipher cc w ctx out inp size).out =
      applyWrites (memcpy out inp size)
        (cc.CCCryptorUpdate w.backend ctx.cipher_data.href inp size
          (memcpy out inp size) size).writes := by
    unfold cc_do_cipher
    simp only []
    split_ifs <;> rfl
  have hcalls : (cc_do_cipher cc w ctx out inp size).world.calls =
      w.calls ++ [CCCall.Update ctx.cipher_data.href inp size
        (memcpy out inp size) size] := by
    unfold cc_do_cipher
    simp only []
    split_ifs <;> rfl
  refine ⟨hcalls, ?_, ?_, ?_, ?_⟩
  · rw [hout_eq, applyWrites_length, memcpy_length out inp size hin hout]
  · intro i hi hnw
    rw [hout_eq, applyWrites_getElem?_of_not_written _ _ _ hnw]
    exact memcpy_getElem?_lt out inp size i hin hi
  · intro hnil
    rw [hout_eq, hnil]
    exact memcpy_take out inp size hin
  · intro i hi
    rw [hout_eq, applyWrites_getElem?_of_not_written _ _ _
      (fun st hst => Nat.ne_of_lt (Nat.lt_of_lt_of_le (hcap st hst) hi))]
    exact memcpy_getElem?_ge out inp size i hin hi

/-- Witness for C6: a 16 byte transform into a 20 byte output buffer with the
accepting backend, which stores within its capacity. -/
theorem cc_do_cipher_frame_witness :
    (cc_do_cipher acceptingCC world0 freshCtx (List.replicate 20 9) zeros16 16).world.calls =
      [CCCall.Update 0 zeros16 16 (zeros16 ++ [9, 9, 9, 9]) 16] ∧
    (cc_do_cipher acceptingCC world0 freshCtx (List.replicate 20 9) zeros16 16).out =
      List.replicate 16 1 ++ [9, 9, 9, 9] ∧
    ∀ i, 16 ≤ i →
      (cc_do_cipher acceptingCC world0 freshCtx (List.replicate 20 9) zeros16 16).out[i]? =
        (List.replicate 20 9)[i]? :=
  ⟨by decide, by decide,
    (cc_do_cipher_frame acceptingCC world0 freshCtx (List.replicate 20 9) zeros16 16
      (by decide) (by decide)
      (by
        intro st hst
        have h1 := (List.of_mem_zip hst).1
        have h2 := List.mem_range.mp h1
        exact Nat.lt_of_lt_of_le h2 (Nat.min_le_right _ _))).2.2.2.2⟩

/-! ## Cleanup -/

/-- C4: for every context and every backend, `cc_cleanup` returns 1; when
the handle is non-null it invokes the backend release exactly once, on that
handle (the backend state afterwards is the one that single
`CCCryptorRelease` application produced, and one release is logged), and when
the handle is null it does not invoke the backend at all (backend state and
log are as before). -/
theorem cc_cleanup_returns_one {σ : Type} (cc : CommonCrypto σ) (w : World σ)
    (ctx : EVP_CIPHER_CTX) :
    (cc_cleanup cc w ctx).ret = 1 ∧
    (cc_cleanup cc w ctx).world.calls =
      w.calls ++ (if ctx.cipher_data.href = 0 then []
        else [CCCall.Release ctx.cipher_data.href]) ∧
    (cc_cleanup cc w ctx).world.backend =
      (if ctx.cipher_data.href = 0 then w.backend
        else (cc.CCCryptorRelease w.backend ctx.cipher_data.href).backend) := by
  unfold cc_cleanup
  by_cases hz : ctx.cipher_data.href = 0
  · simp [hz]
  · simp [hz]

/-- C10: `cc_cleanup` leaves the context as it found it (the handle is not
reset to null), so two consecutive cleanups of a context holding a non-null
handle invoke the backend release twice on the same handle: the backend state
afterwards is the result of applying `CCCryptorRelease` to that handle and
then again to the same handle, and two releases of it are logged (with a null
handle the backend is not invoked). -/
theorem cc_cleanup_twice_releases_twice {σ : Type} (cc : CommonCrypto σ) (w : World σ)
    (ctx : EVP_CIPHER_CTX) :
    (cc_cleanup cc w ctx).ctx = ctx ∧
    (cc_cleanup cc w ctx).ctx.cipher_data.href = ctx.cipher_data.href ∧
    (cc_cleanup cc (cc_cleanup cc w ctx).world (cc_cleanup cc w ctx).ctx).world.calls =
      w.calls ++ (if ctx.cipher_data.href = 0 then []
        else [CCCall.Release ctx.cipher_data.href,
              CCCall.Release ctx.cipher_data.href]) ∧
    (cc_cleanup cc (cc_cleanup cc w ctx).world (cc_cleanup cc w ctx).ctx).world.backend =
      (if ctx.cipher_data.href = 0 then w.backend
        else (cc.CCCryptorRelease
          (cc.CCCryptorRelease w.backend ctx.cipher_data.href).backend
          ctx.cipher_data.href).backend) := by
  unfold cc_cleanup
  by_cases hz : ctx.cipher_data.href = 0
  · simp [hz]
  · simp [hz]

/-! ## Cipher init -/

/-- C2 fails as stated: the RC4 descriptor has IV length 0, which is not
positive. -/
theorem rc4_iv_len_not_positive :
    ∃ d : EVP_CIPHER, EVP_cc_rc4 published = some d ∧ d.iv_len = 0 ∧ ¬ (0 < d.iv_len) :=
  ⟨_, rfl, rfl, by decide⟩

/-- C2, as the code has it: under the published header constants, every
supported cipher descriptor has a positive block size and key length equal to
the published sizes; its IV length is positive and equal to the block size
for the eight CBC descriptors, and is 0 for RC4 and RC4-40. -/
theorem cipher_descriptor_sizes (h : Headers) (hp : h.Published) (n : CipherName)
    (d : EVP_CIPHER) (hd : cipherAccessor n h = some d) :
    0 < d.block_size ∧ 0 < d.key_len ∧
    d.block_size = publishedBlockSize n ∧ d.key_len = publishedKeyLen n ∧
    d.iv_len = (if n.isRC4 = true then 0 else d.block_size) ∧
    (n.isRC4 = true ∨ 0 < d.iv_len) := by
  obtain ⟨h1, h2, h3, h4, h5, h6, h7, -⟩ := hp
  cases n <;>
    simp only [cipherAccessor, EVP_cc_des_ede3_cbc, EVP_cc_des_cbc, EVP_cc_aes_128_cbc,
      EVP_cc_aes_192_cbc, EVP_cc_aes_256_cbc, EVP_cc_rc2_cbc, EVP_cc_rc2_40_cbc,
      EVP_cc_rc2_64_cbc, EVP_cc_camellia_128_cbc, EVP_cc_camellia_192_cbc,
      EVP_cc_camellia_256_cbc, EVP_cc_rc4, EVP_cc_rc4_40, Option.some.injEq,
      reduceCtorEq] at hd <;>
    subst hd <;>
    simp [CipherName.isRC4, publishedBlockSize, publishedKeyLen, h1, h2, h3, h4, h5, h6, h7]

/-- Witness for C2: the AES-128-CBC descriptor under the published
constants has block size 16, key length 16 and IV length 16. -/
theorem cipher_descriptor_sizes_witness :
    0 < aes128.block_size ∧ 0 < aes128.key_len ∧
    aes128.block_size = 16 ∧ aes128.key_len = 16 ∧
    aes128.iv_len = (if CipherName.aes_128_cbc.isRC4 = true then 0 else aes128.block_size) ∧
    (CipherName.aes_128_cbc.isRC4 = true ∨ 0 < aes128.iv_len) :=
  cipher_descriptor_sizes published (by decide) CipherName.aes_128_cbc aes128 rfl

/-- C5: every cipher accessor returns either `NULL` or a descriptor whose
init, do-transform and cleanup slots are all non-null: the three Camellia
accessors return `NULL`, every other accessor returns a descriptor with the
three slots filled. -/
theorem cipher_accessor_absent_or_full (h : Headers) (n : CipherName) :
    EVP_cc_camellia_128_cbc h = none ∧ EVP_cc_camellia_192_cbc h = none ∧
    EVP_cc_camellia_256_cbc h = none ∧
    ((n.isCamellia = true ∧ cipherAccessor n h = none) ∨
     (n.isCamellia = false ∧
      ∃ d : EVP_CIPHER, cipherAccessor n h = some d ∧
        d.init ≠ none ∧ d.do_cipher ≠ none ∧ d.cleanup ≠ none)) := by
  refine ⟨rfl, rfl, rfl, ?_⟩
  cases n <;>
    simp [CipherName.isCamellia, cipherAccessor, EVP_cc_des_ede3_cbc, EVP_cc_des_cbc,
      EVP_cc_aes_128_cbc, EVP_cc_aes_192_cbc, EVP_cc_aes_256_cbc, EVP_cc_rc2_cbc,
      EVP_cc_rc2_40_cbc, EVP_cc_rc2_64_cbc, EVP_cc_camellia_128_cbc,
      EVP_cc_camellia_192_cbc, EVP_cc_camellia_256_cbc, EVP_cc_rc4, EVP_cc_rc4_40]

/-! ## Digest descriptors -/

/-- C8: under the published header constants, every digest accessor returns
a non-null descriptor whose output length, block length and private state
size are the backend's constants for that digest (output length 16 for
MD2/MD4/MD5, 20 for SHA-1, 32 for SHA-256), whose init, update and final slots
hold that digest's backend functions, and whose cleanup slot is null. -/
theorem digest_descriptor_bindings (h : Headers) (hp : h.Published) (n : DigestName) :
    ∃ d : hc_evp_md, digestAccessor n h = some d ∧
      d.hash_size = (backendDigestConstants h n).1 ∧
      d.block_size = (backendDigestConstants h n).2.1 ∧
      d.ctx_size = (backendDigestConstants h n).2.2 ∧
      d.hash_size = publishedDigestLength n ∧
      d.init = some (backendDigestFunctions n).1 ∧
      d.update = some (backendDigestFunctions n).2.1 ∧
      d.final = some (backendDigestFunctions n).2.2 ∧
      d.init ≠ none ∧ d.update ≠ none ∧ d.final ≠ none ∧
      d.cleanup = none := by
  obtain ⟨-, -, -, -, -, -, -, h8, h9, h10, h11, h12⟩ := hp
  cases n <;>
    simp [digestAccessor, EVP_cc_md2, EVP_cc_md4, EVP_cc_md5, EVP_cc_sha1, EVP_cc_sha256,
      backendDigestConstants, backendDigestFunctions, publishedDigestLength,
      h8, h9, h10, h11, h12]

/-- Witness for C8: the SHA-256 descriptor under the published constants. -/
theorem digest_descriptor_bindings_witness :
    ∃ d : hc_evp_md, digestAccessor DigestName.sha256 published = some d ∧
      d.hash_size = (backendDigestConstants published DigestName.sha256).1 ∧
      d.block_size = (backendDigestConstants published DigestName.sha256).2.1 ∧
      d.ctx_size = (backendDigestConstants published DigestName.sha256).2.2 ∧
      d.hash_size = 32 ∧
      d.init = some CCDigestFn.CC_SHA256_Init ∧
      d.update = some CCDigestFn.CC_SHA256_Update ∧
      d.final = some CCDigestFn.CC_SHA256_Final ∧
      d.init ≠ none ∧ d.update ≠ none ∧ d.final ≠ none ∧
      d.cleanup = none :=
  digest_descriptor_bindings published (by decide) DigestName.sha256

end EvpCC
